import Mathlib

/-!
Shallow embedding of the SQL-generation core of `sqlx-crud-macros`
(`src/sqlx-crud-macros/src/lib_bak.rs`).  The derive macro's parsing of the
host-language token stream is external; the embedding starts from the data
that parsing delivers to `Config::new`: the struct identifier, the ordered
named-field list (each field knowing whether it carries the `id` attribute),
and the struct-level `database` / `external_ids` attributes reduced to the
shape `parse_meta` reports for them.
-/

/-- The `DbType` enum (lib_bak.rs lines 292-298). -/
inductive DbType
  | Any
  | Mssql
  | MySql
  | Postgres
  | Sqlite
deriving DecidableEq, Repr

/-- The result of `Attribute::parse_meta` on a struct-level attribute, as far
as the code inspects it: either `Meta::NameValue` carrying `Lit::Str(s)`, or
any other outcome (other meta shapes, non-string literals, parse errors),
which every `match` in the source sends to its catch-all arm. -/
inductive MetaShape
  | nameValueStr (s : String)
  | malformed
deriving DecidableEq, Repr

/-- The struct-level attributes `Config::new` looks for, each as
`attrs.iter().find(..).map(|a| a.parse_meta())`: `none` when the attribute is
absent, otherwise the shape of its parsed meta. -/
structure Attrs where
  database : Option MetaShape
  external_ids : Option MetaShape
deriving DecidableEq, Repr

/-- One named struct field: its identifier and whether any of its attributes
has the path `id` (lib_bak.rs line 252). -/
structure FieldDescriptor where
  name : String
  hasIdAttr : Bool
deriving DecidableEq, Repr

/-- `impl From<&str> for DbType` (lib_bak.rs lines 300-311); the `panic!` on
an unrecognized tag is modelled as `Except.error` with the panic message. -/
def DbType.fromStr (db_type : String) : Except String DbType :=
  if db_type = "Any" then .ok .Any
  else if db_type = "Mssql" then .ok .Mssql
  else if db_type = "MySql" then .ok .MySql
  else if db_type = "Postgres" then .ok .Postgres
  else if db_type = "Sqlite" then .ok .Sqlite
  else .error ("unknown database type " ++ db_type)

/-- `DbType::from_attributes` (lib_bak.rs lines 314-325): a `database`
attribute parsed as `Meta::NameValue` with a string literal goes through
`DbType::from`; every other case falls back to `Sqlite`. -/
def DbType.from_attributes : Option MetaShape → Except String DbType
  | some (.nameValueStr s) => DbType.fromStr s
  | _ => .ok .Sqlite

/-- `DbType::quote_ident` (lib_bak.rs lines 337-345). -/
def DbType.quote_ident (d : DbType) (ident : String) : String :=
  match d with
  | .Any => "\"" ++ ident ++ "\""
  | .Mssql => "\"" ++ ident ++ "\""
  | .MySql => "`" ++ ident ++ "`"
  | .Postgres => "\"" ++ ident ++ "\""
  | .Sqlite => "\"" ++ ident ++ "\""

/-- Rust `bool::from_str`, used at lib_bak.rs line 271: exactly `"true"` and
`"false"` parse; everything else is an error. -/
def parseBool (s : String) : Option Bool :=
  match s with
  | "true" => some true
  | "false" => some false
  | _ => none

/-- The `external_id` resolution in `Config::new` (lib_bak.rs lines 264-273):
a name-value string attribute is parsed with `unwrap_or_else(|_| false)`;
every other case is `false`. -/
def resolveExternalId : Option MetaShape → Bool
  | some (.nameValueStr s) => (parseBool s).getD false
  | _ => false

/-- The id-column resolution in `Config::new` (lib_bak.rs lines 249-262):
the first field carrying the `id` attribute, otherwise the first declared
field; the `.expect("the first field")` panic on an empty field list is
modelled as `Except.error`. -/
def resolveIdColumn (named : List FieldDescriptor) : Except String String :=
  match (named.find? (·.hasIdAttr)).map (·.name) with
  | some n => .ok n
  | none =>
    match named.head? with
    | some f => .ok f.name
    | none => .error "the first field"

/-- Modelled from the Inflector crate (dependency `inflector`, outside this
repository): snake-case normalization of a camel/Pascal-case identifier, as
performed by `to_table_case` before pluralization.  Each upper-case letter is
lowered and separated by an underscore. -/
def snakeCaseChars : List Char → List Char
  | [] => []
  | c :: cs =>
    (if c.isUpper then ['_', c.toLower] else [c]) ++ snakeCaseChars cs

/-- Snake-case form of an identifier, with a leading separator dropped. -/
def toSnakeCase (s : String) : String :=
  let cs := snakeCaseChars s.data
  String.mk (match cs with
    | '_' :: rest => rest
    | other => other)

/-- Modelled from the Inflector crate's `to_table_case` (used at lib_bak.rs
line 247): the snake-case form with the final word pluralized.  The model
covers regular nouns, whose plural appends `s`; Inflector's irregular and
uncountable noun tables are not exercised by this development. -/
def toTableCase (s : String) : String :=
  toSnakeCase s ++ "s"

/-- The fields of `Config` that the SQL generation consumes (lib_bak.rs lines
13-22; `ident`, `crate_name` and `model_schema_ident` only feed the emitted
token stream and carry no SQL content). -/
structure Config where
  fields : List FieldDescriptor
  db_ty : DbType
  table_name : String
  id_column : String
  external_id : Bool
deriving DecidableEq, Repr

/-- `Config::new` (lib_bak.rs lines 229-285).  The two panics (unknown
database tag inside `DbType::from`, empty field list at
`.expect("the first field")`) are the `Except.error` outcomes; the
environment-variable lookup for `crate_name` only affects emitted paths and
is omitted. -/
def Config.new (attrs : Attrs) (ident : String) (named : List FieldDescriptor) :
    Except String Config :=
  match DbType.from_attributes attrs.database with
  | .error e => .error e
  | .ok db_ty =>
    match resolveIdColumn named with
    | .error e => .error e
    | .ok id_column =>
      .ok { fields := named
            db_ty := db_ty
            table_name := toTableCase ident
            id_column := id_column
            external_id := resolveExternalId attrs.external_ids }

/-- `Config::quote_ident` (lib_bak.rs lines 287-289). -/
def Config.quote_ident (c : Config) (ident : String) : String :=
  c.db_ty.quote_ident ident

/-- The quoted table name (lib_bak.rs line 79). -/
def Config.table_ident (c : Config) : String :=
  c.quote_ident c.table_name

/-- The qualified quoted id column `{table}.{id}` (lib_bak.rs lines 80-84). -/
def Config.id_column_qual (c : Config) : String :=
  c.table_ident ++ "." ++ c.quote_ident c.id_column

/-- `insert_bind_cnt` (lib_bak.rs lines 85-89). -/
def Config.insert_bind_cnt (c : Config) : Nat :=
  if c.external_id then c.fields.length else c.fields.length - 1

/-- `insert_sql_binds` (lib_bak.rs lines 90-93): `insert_bind_cnt`
placeholder tokens, comma-joined. -/
def Config.insert_sql_binds (c : Config) : String :=
  String.intercalate ", " (List.replicate c.insert_bind_cnt "?")

/-- The column names kept by the `update_sql_binds` filter (lib_bak.rs lines
94-100): every field name other than the id column, in declared order. -/
def Config.update_columns (c : Config) : List String :=
  (c.fields.map FieldDescriptor.name).filter (· != c.id_column)

/-- `update_sql_binds` (lib_bak.rs lines 94-100). -/
def Config.update_sql_binds (c : Config) : String :=
  String.intercalate ", "
    (c.update_columns.map (fun i => c.quote_ident i ++ " = ?"))

/-- The column names kept by the `insert_column_list` filter (lib_bak.rs
lines 102-108): the filter keeps `i` iff `!external_id && i != id_column`. -/
def Config.insert_columns (c : Config) : List String :=
  (c.fields.map FieldDescriptor.name).filter
    (fun i => !c.external_id && i != c.id_column)

/-- `insert_column_list` (lib_bak.rs lines 102-108). -/
def Config.insert_column_list (c : Config) : String :=
  String.intercalate ", " (c.insert_columns.map c.quote_ident)

/-- `column_list` (lib_bak.rs lines 109-114): every field, qualified with the
table name. -/
def Config.column_list (c : Config) : String :=
  String.intercalate ", "
    ((c.fields.map FieldDescriptor.name).map
      (fun i => c.table_ident ++ "." ++ c.quote_ident i))

/-- `select_sql` (lib_bak.rs line 116). -/
def Config.select_sql (c : Config) : String :=
  "SELECT " ++ c.column_list ++ " FROM " ++ c.table_ident

/-- `select_by_id_sql` (lib_bak.rs lines 117-120). -/
def Config.select_by_id_sql (c : Config) : String :=
  "SELECT " ++ c.column_list ++ " FROM " ++ c.table_ident ++ " WHERE " ++
    c.id_column_qual ++ " = ? LIMIT 1"

/-- `insert_sql` (lib_bak.rs lines 121-124). -/
def Config.insert_sql (c : Config) : String :=
  "INSERT INTO " ++ c.table_ident ++ " (" ++ c.insert_column_list ++
    ") VALUES (" ++ c.insert_sql_binds ++ ") RETURNING " ++ c.column_list

/-- `update_by_id_sql` (lib_bak.rs lines 125-128). -/
def Config.update_by_id_sql (c : Config) : String :=
  "UPDATE " ++ c.table_ident ++ " SET " ++ c.update_sql_binds ++ " WHERE " ++
    c.id_column_qual ++ " = ? RETURNING " ++ c.column_list

/-- `delete_by_id_sql` (lib_bak.rs line 129). -/
def Config.delete_by_id_sql (c : Config) : String :=
  "DELETE FROM " ++ c.table_ident ++ " WHERE " ++ c.id_column_qual ++ " = ?"

/-- The insert binding plan of `build_sqlx_crud_impl` (lib_bak.rs lines
152-155 and 208-214): one `.bind(&self.i)` per field, in declared order,
represented by the ordered list of bound field names. -/
def Config.insert_binds (c : Config) : List String :=
  c.fields.map FieldDescriptor.name

/-- The update binding plan of `build_sqlx_crud_impl` (lib_bak.rs lines
156-160 and 216-223): one `.bind(&self.i)` per non-id field in declared
order, then `.bind(&self.id_column_ident)` last. -/
def Config.update_binds (c : Config) : List String :=
  ((c.fields.map FieldDescriptor.name).filter (· != c.id_column)) ++ [c.id_column]

/-- A copy of a config with the `external_id` flag replaced, used to state
that a generation artifact does not depend on the flag. -/
def Config.withExternalId (c : Config) (b : Bool) : Config :=
  { c with external_id := b }

/-! Concrete inputs used by the witnesses and counterexamples: the spec's
example record `UserAccount { id (id-annotated), email, active }`, its
attribute sets, and the configs that `Config.new` produces on them. -/

/-- The example field list: `id` carries the `id` attribute. -/
def exFieldsUA : List FieldDescriptor :=
  [⟨"id", true⟩, ⟨"email", false⟩, ⟨"active", false⟩]

/-- No struct-level attributes at all. -/
def exAttrsPlain : Attrs :=
  { database := none, external_ids := none }

/-- Attributes carrying `external_ids = "true"`. -/
def exAttrsExt : Attrs :=
  { database := none, external_ids := some (.nameValueStr "true") }

/-- The config `Config.new` builds from `exAttrsExt` and struct name
`User`. -/
def cfgUserExt : Config :=
  { fields := exFieldsUA, db_ty := .Sqlite, table_name := "users",
    id_column := "id", external_id := true }

/-- The config `Config.new` builds from `exAttrsPlain` and struct name
`UserAccount`. -/
def cfgUA : Config :=
  { fields := exFieldsUA, db_ty := .Sqlite, table_name := "user_accounts",
    id_column := "id", external_id := false }

/-- On a non-empty field list, id-column resolution always succeeds. -/
theorem resolveIdColumn_ok_of_ne_nil (named : List FieldDescriptor)
    (h : named ≠ []) : ∃ n, resolveIdColumn named = .ok n := by
  cases named with
  | nil => exact absurd rfl h
  | cons f rest =>
    unfold resolveIdColumn
    cases hfind : ((f :: rest).find? (·.hasIdAttr)).map (·.name) with
    | some n => exact ⟨n, rfl⟩
    | none => exact ⟨f.name, rfl⟩

/-- If the dialect attribute resolves and the field list is non-empty,
`Config.new` succeeds, and the resulting config's components are the
resolved parts of its inputs. -/
theorem Config.new_ok (attrs : Attrs) (ident : String)
    (named : List FieldDescriptor) (d : DbType) (n : String)
    (hdb : DbType.from_attributes attrs.database = .ok d)
    (hid : resolveIdColumn named = .ok n) :
    Config.new attrs ident named =
      .ok { fields := named, db_ty := d, table_name := toTableCase ident,
            id_column := n,
            external_id := resolveExternalId attrs.external_ids } := by
  unfold Config.new
  rw [hdb, hid]

/-- C1: evaluation of the code at the failing input (struct `User` with
fields `id` (id-annotated), `email`, `active` and `external_ids = "true"`).
The filter at lib_bak.rs line 105 keeps a column iff
`!external_id && i != id_column`, so with `external_id = true` the generated
insert column list is empty: the id column — and every other column — is
omitted, contradicting the claim that all columns are included.  The
placeholder list nevertheless has three entries, so the emitted statement is
`INSERT INTO "users" () VALUES (?, ?, ?) ...`. -/
theorem c1_insert_columns_empty_on_external_id :
    Config.new exAttrsExt "User" exFieldsUA = .ok cfgUserExt
    ∧ cfgUserExt.external_id = true
    ∧ cfgUserExt.insert_columns = []
    ∧ cfgUserExt.insert_sql =
        "INSERT INTO \"users\" () VALUES (?, ?, ?) RETURNING \"users\".\"id\", \"users\".\"email\", \"users\".\"active\"" :=
  ⟨rfl, rfl, rfl, rfl⟩

/-- C2: evaluation of the code at the failing input (same descriptor as C1).
With `external_id = true` the placeholder count is the full field count (3,
lib_bak.rs lines 85-89) while the insert column list rendered by lines
102-108 contains 0 columns, so the two counts differ, contradicting the
claim. -/
theorem c2_placeholder_count_mismatch :
    Config.new exAttrsExt "User" exFieldsUA = .ok cfgUserExt
    ∧ cfgUserExt.insert_bind_cnt = 3
    ∧ cfgUserExt.insert_columns.length = 0 :=
  ⟨rfl, rfl, rfl⟩

/-- C3 counterexample: the type name `UserAccount` yields the table name
`user_accounts` (Inflector's `to_table_case` pluralizes), not the
`user_account` the claim states. -/
theorem c3_counterexample :
    Config.new exAttrsPlain "UserAccount" exFieldsUA = .ok cfgUA
    ∧ cfgUA.table_name = "user_accounts"
    ∧ cfgUA.table_name ≠ "user_account" :=
  ⟨rfl, rfl, by decide⟩

/-- C3 (amended): for every record type name, the derived table name is the
table-case form of the type name — lower-case, underscore-separated, with
the final word pluralized; in particular `UserAccount` yields
`user_accounts`. -/
theorem c3_table_name_is_table_case (attrs : Attrs) (ident : String)
    (named : List FieldDescriptor) (c : Config)
    (h : Config.new attrs ident named = .ok c) :
    c.table_name = toTableCase ident := by
  unfold Config.new at h
  rcases hdb : DbType.from_attributes attrs.database with e | d <;> rw [hdb] at h
  · exact Except.noConfusion h
  · rcases hid : resolveIdColumn named with e | n <;> rw [hid] at h
    · exact Except.noConfusion h
    · injection h with h'
      rw [← h']

/-- C3 witness: the amended theorem applied to the `UserAccount` example. -/
theorem c3_table_name_is_table_case_witness :
    cfgUA.table_name = toTableCase "UserAccount" :=
  c3_table_name_is_table_case exAttrsPlain "UserAccount" exFieldsUA cfgUA rfl

/-- C4 counterexample: with two id-annotated fields `a` then `b`, resolution
returns the FIRST annotated field `a` (the `.find` at lib_bak.rs line 252
stops at the first match), not the last one `b` the claim states. -/
theorem c4_counterexample :
    resolveIdColumn [⟨"a", true⟩, ⟨"b", true⟩] = .ok "a" ∧ "a" ≠ "b" :=
  ⟨rfl, by decide⟩

/-- C4 (amended): when more than one field carries the identity annotation,
id-field resolution returns the FIRST annotated field in declaration order
(first-wins), and no error is raised: descriptor construction succeeds with
that field as the id column. -/
theorem c4_first_annotated_wins (attrs : Attrs) (ident : String)
    (pre : List FieldDescriptor) (f : FieldDescriptor)
    (post : List FieldDescriptor)
    (hpre : ∀ g ∈ pre, g.hasIdAttr = false) (hf : f.hasIdAttr = true)
    (d : DbType) (hdb : DbType.from_attributes attrs.database = .ok d) :
    ∃ c, Config.new attrs ident (pre ++ f :: post) = .ok c
      ∧ c.id_column = f.name := by
  have hnone : pre.find? (·.hasIdAttr) = none := by
    rw [List.find?_eq_none]
    intro x hx
    simp [hpre x hx]
  have hcons : (f :: post).find? (·.hasIdAttr) = some f :=
    List.find?_cons_of_pos _ hf
  have hfind : (pre ++ f :: post).find? (·.hasIdAttr) = some f := by
    rw [List.find?_append, hnone, hcons]
    rfl
  have hid : resolveIdColumn (pre ++ f :: post) = .ok f.name := by
    unfold resolveIdColumn
    rw [hfind]
    rfl
  exact ⟨_, Config.new_ok attrs ident (pre ++ f :: post) d f.name hdb hid, rfl⟩

/-- C4 witness: the amended theorem applied to the two-annotated-field
example; the resolved id column is `a`, the first annotated field. -/
theorem c4_first_annotated_wins_witness :
    ∃ c, Config.new exAttrsPlain "User"
        ([] ++ (⟨"a", true⟩ : FieldDescriptor) :: [⟨"b", true⟩]) = .ok c
      ∧ c.id_column = "a" :=
  c4_first_annotated_wins exAttrsPlain "User" [] ⟨"a", true⟩ [⟨"b", true⟩]
    (by simp) rfl .Sqlite rfl

/-- C5: the insert binding plan is the list of all declared fields in
declared order, unchanged by the `external_id` flag, and it contains the id
field's bind whenever the id column is one of the declared field names (the
map at lib_bak.rs lines 152-155 applies no filter). -/
theorem c5_insert_bind_order (c : Config) (b : Bool)
    (h : c.id_column ∈ c.fields.map FieldDescriptor.name) :
    (c.withExternalId b).insert_binds = c.fields.map FieldDescriptor.name
    ∧ c.id_column ∈ (c.withExternalId b).insert_binds :=
  ⟨rfl, h⟩

/-- C5 witness: the theorem applied to the `UserAccount` example under both
values of the flag's override. -/
theorem c5_insert_bind_order_witness :
    (cfgUA.withExternalId true).insert_binds =
      cfgUA.fields.map FieldDescriptor.name
    ∧ cfgUA.id_column ∈ (cfgUA.withExternalId true).insert_binds :=
  c5_insert_bind_order cfgUA true (by decide)

/-- C6: for a config whose field names are distinct, the update SET list
contains every non-id field name exactly once, as a subsequence of the
declared order, never contains the id column; and the update binding plan is
exactly those columns followed by the id field strictly last. -/
theorem c6_update_set_and_bind_order (c : Config)
    (hnodup : (c.fields.map FieldDescriptor.name).Nodup) :
    c.id_column ∉ c.update_columns
    ∧ (∀ n ∈ c.fields.map FieldDescriptor.name, n ≠ c.id_column →
        c.update_columns.count n = 1)
    ∧ c.update_columns.Sublist (c.fields.map FieldDescriptor.name)
    ∧ c.update_binds = c.update_columns ++ [c.id_column]
    ∧ c.update_binds.getLast? = some c.id_column := by
  refine ⟨?_, ?_, ?_, rfl, ?_⟩
  · intro hmem
    rw [Config.update_columns, List.mem_filter] at hmem
    simp at hmem
  · intro n hn hne
    have hmem : n ∈ c.update_columns := by
      rw [Config.update_columns, List.mem_filter]
      exact ⟨hn, by simp [hne]⟩
    exact List.count_eq_one_of_mem (hnodup.filter _) hmem
  · exact List.filter_sublist _
  · rw [Config.update_binds, List.getLast?_concat]

/-- C6 witness: the theorem applied to the `UserAccount` example. -/
theorem c6_update_set_and_bind_order_witness :
    cfgUA.id_column ∉ cfgUA.update_columns
    ∧ (∀ n ∈ cfgUA.fields.map FieldDescriptor.name, n ≠ cfgUA.id_column →
        cfgUA.update_columns.count n = 1)
    ∧ cfgUA.update_columns.Sublist (cfgUA.fields.map FieldDescriptor.name)
    ∧ cfgUA.update_binds = cfgUA.update_columns ++ [cfgUA.id_column]
    ∧ cfgUA.update_binds.getLast? = some cfgUA.id_column :=
  c6_update_set_and_bind_order cfgUA (by decide)

/-- C7: identifier quoting is by dialect: back-ticks for MySql, double
quotes for every other dialect, and the identifier text is embedded
unchanged (no escaping); every identifier in the five generated statements
is rendered through this function. -/
theorem c7_quote_ident_by_dialect (d : DbType) (s : String) :
    d.quote_ident s =
      if d = DbType.MySql then "`" ++ s ++ "`" else "\"" ++ s ++ "\"" := by
  cases d <;> rfl

/-- Attributes carrying the unparseable external-id value `yes`. -/
def exAttrsYes : Attrs :=
  { database := none, external_ids := some (.nameValueStr "yes") }

/-- C8: when the external-id attribute is present as a textual value that
does not parse as a boolean, descriptor construction still succeeds (for a
non-empty field list with a resolvable dialect) and `external_id` is
`false` (the `unwrap_or_else(|_| false)` at lib_bak.rs line 271); being a
pure function, the result is deterministic in its inputs. -/
theorem c8_unparseable_external_id_defaults_false (attrs : Attrs)
    (ident : String) (named : List FieldDescriptor) (s : String)
    (hm : attrs.external_ids = some (.nameValueStr s))
    (hp : parseBool s = none)
    (hne : named ≠ [])
    (d : DbType) (hdb : DbType.from_attributes attrs.database = .ok d) :
    ∃ c, Config.new attrs ident named = .ok c ∧ c.external_id = false := by
  obtain ⟨n, hid⟩ := resolveIdColumn_ok_of_ne_nil named hne
  refine ⟨_, Config.new_ok attrs ident named d n hdb hid, ?_⟩
  show resolveExternalId attrs.external_ids = false
  rw [hm]
  show (parseBool s).getD false = false
  rw [hp]
  rfl

/-- C8 witness: the theorem applied to `external_ids = "yes"`, which Rust's
`bool::from_str` rejects. -/
theorem c8_unparseable_external_id_defaults_false_witness :
    ∃ c, Config.new exAttrsYes "User" exFieldsUA = .ok c
      ∧ c.external_id = false :=
  c8_unparseable_external_id_defaults_false exAttrsYes "User" exFieldsUA
    "yes" rfl rfl (by decide) .Sqlite rfl

/-- C9: with a resolvable dialect annotation, descriptor construction on the
empty field list fails (the `.expect("the first field")` panic aborts
generation, yielding no config at all), and on every non-empty field list it
succeeds. -/
theorem c9_empty_fields_fatal (attrs : Attrs) (ident : String)
    (named : List FieldDescriptor)
    (d : DbType) (hdb : DbType.from_attributes attrs.database = .ok d) :
    (named = [] → ∀ c, Config.new attrs ident named ≠ .ok c)
    ∧ (named ≠ [] → ∃ c, Config.new attrs ident named = .ok c) := by
  constructor
  · rintro rfl c hc
    unfold Config.new at hc
    rw [hdb] at hc
    exact Except.noConfusion hc
  · intro hne
    obtain ⟨n, hid⟩ := resolveIdColumn_ok_of_ne_nil named hne
    exact ⟨_, Config.new_ok attrs ident named d n hdb hid⟩

/-- C9 witness: the theorem applied to the empty field list (construction
refuses) and to the three-field example (construction succeeds). -/
theorem c9_empty_fields_fatal_witness :
    (∀ c, Config.new exAttrsPlain "User" [] ≠ .ok c)
    ∧ (∃ c, Config.new exAttrsPlain "User" exFieldsUA = .ok c) :=
  ⟨(c9_empty_fields_fatal exAttrsPlain "User" [] .Sqlite rfl).1 rfl,
   (c9_empty_fields_fatal exAttrsPlain "User" exFieldsUA .Sqlite rfl).2
     (by decide)⟩

/-- C10: dialect resolution sends an absent or malformed (non string
name-value) `database` attribute silently to `Sqlite`; a string name-value
attribute goes through the tag table, and that lookup fails exactly when the
tag is not one of the five recognized ones. -/
theorem c10_dialect_resolution (m : Option MetaShape) :
    (m = none ∨ m = some .malformed →
      DbType.from_attributes m = .ok .Sqlite)
    ∧ (∀ s, DbType.from_attributes (some (.nameValueStr s)) =
        DbType.fromStr s)
    ∧ (∀ s, (∃ e, DbType.fromStr s = .error e) ↔
        s ∉ (["Any", "Mssql", "MySql", "Postgres", "Sqlite"] :
          List String)) := by
  refine ⟨?_, fun s => rfl, ?_⟩
  · rintro (rfl | rfl) <;> rfl
  · intro s
    constructor
    · rintro ⟨e, he⟩ hmem
      simp only [List.mem_cons, List.not_mem_nil, or_false] at hmem
      rcases hmem with rfl | rfl | rfl | rfl | rfl
      · exact Except.noConfusion
          (show Except.ok DbType.Any = Except.error e from he)
      · exact Except.noConfusion
          (show Except.ok DbType.Mssql = Except.error e from he)
      · exact Except.noConfusion
          (show Except.ok DbType.MySql = Except.error e from he)
      · exact Except.noConfusion
          (show Except.ok DbType.Postgres = Except.error e from he)
      · exact Except.noConfusion
          (show Except.ok DbType.Sqlite = Except.error e from he)
    · intro hs
      simp only [List.mem_cons, List.not_mem_nil, or_false, not_or] at hs
      obtain ⟨h1, h2, h3, h4, h5⟩ := hs
      refine ⟨"unknown database type " ++ s, ?_⟩
      rw [DbType.fromStr, if_neg h1, if_neg h2, if_neg h3, if_neg h4,
        if_neg h5]

/-- C10 witness: the theorem applied to a malformed attribute (falls back to
`Sqlite`) and to the unrecognized tag `Oracle` (fails). -/
theorem c10_dialect_resolution_witness :
    DbType.from_attributes (some .malformed) = .ok .Sqlite
    ∧ DbType.from_attributes (some (.nameValueStr "Oracle")) =
        DbType.fromStr "Oracle"
    ∧ (∃ e, DbType.fromStr "Oracle" = .error e) :=
  ⟨(c10_dialect_resolution (some .malformed)).1 (Or.inr rfl),
   (c10_dialect_resolution (some (.nameValueStr "Oracle"))).2.1 "Oracle",
   ((c10_dialect_resolution none).2.2 "Oracle").mpr (by decide)⟩
